import Mathlib

/-!
Shallow embedding of the FPGA NPU PCIe driver (src/software/driver/fpga_npu_driver.c,
src/software/driver/fpga_npu_enhanced.h) and of the user-space runtime library
(src/software/userspace/fpga_npu_lib.c, fpga_npu_lib.h).

Machine integers are modelled as Nat with explicit reduction modulo 2^32 (u32) or
2^64 (u64) exactly where the C code computes in those widths.  Kernel-side fallible
calls return an Int error code (0 for success, negative errno on failure), as the
driver does.  Register writes (iowrite32) are logged in a mock register file so that
claims about "zero register writes" are checkable.  The atomic reference counter of
struct npu_dma_buf is an Int field; the registry list dev->dma_buffers is a Lean
list in insertion order (list_add_tail appends).  A buffer object removed from the
registry by list_del keeps its slot in the model list with in_registry = false,
which models the C struct staying allocated while a DMA transfer still holds a
pointer to it; mem_alive records whether dma_free_coherent has been called on its
backing memory.
-/

namespace FpgaNpu

/-! Width moduli for the explicit-width C integer types. -/

def U32_MOD : Nat := 2 ^ 32
def U64_MOD : Nat := 2 ^ 64

/-! Register offsets (fpga_npu_driver.c lines 41-56). -/

def REG_CONTROL : Nat := 0x00
def REG_STATUS : Nat := 0x04
def REG_DATA_ADDR : Nat := 0x08
def REG_DATA_SIZE : Nat := 0x0C
def REG_DMA_CTRL : Nat := 0x30
def REG_DMA_SRC : Nat := 0x34
def REG_DMA_DST : Nat := 0x38
def REG_DMA_SIZE : Nat := 0x3C

/-! Control register bits (lines 59-61): CTRL_ENABLE = BIT(0), CTRL_START = BIT(2). -/

def CTRL_ENABLE : Nat := 1
def CTRL_START : Nat := 4

/-! Buffer size limits (fpga_npu_enhanced.h lines 18-19). -/

def NPU_MAX_BUFFER_SIZE : Nat := 16 * 1024 * 1024
def NPU_MIN_BUFFER_SIZE : Nat := 4096

/-! Instruction flags (fpga_npu_enhanced.h lines 212-214). -/

def NPU_INST_FLAG_HIGH_PRIORITY : Nat := 2
def NPU_INST_FLAG_PROFILE : Nat := 4

/-! Linux errno values returned (negated) by the driver. -/

def ENOENT : Int := 2
def EBUSY : Int := 16
def EINVAL : Int := 22
def ETIMEDOUT : Int := 110

/-- Model of struct npu_dma_buf (driver lines 79-87).  in_registry is membership of
the dev->dma_buffers list (list_del only unlinks the node); mem_alive is whether the
DMA backing memory is still allocated (becomes false at dma_free_coherent). -/
structure NpuDmaBuf where
  buffer_id : Nat
  size : Nat
  flags : Nat
  dma_handle : Nat
  ref_count : Int
  in_registry : Bool
  mem_alive : Bool
deriving Repr, DecidableEq

/-- Model of struct npu_dma_transfer (fpga_npu_enhanced.h lines 95-104); offset and
size are __u64 fields, buffer_id and the rest are __u32. -/
structure NpuDmaTransfer where
  buffer_id : Nat
  offset : Nat
  size : Nat
  direction : Nat
  flags : Nat
  user_addr : Nat
  timeout_ms : Nat
deriving Repr, DecidableEq

/-- Model of struct npu_instruction (fpga_npu_enhanced.h lines 107-116); params has
8 entries, none of which the driver reads. -/
structure NpuInstruction where
  operation : Nat
  src1_addr : Nat
  src2_addr : Nat
  dst_addr : Nat
  size : Nat
  params : List Nat
  flags : Nat
deriving Repr, DecidableEq

/-- Model of the driver state fpga_npu_dev that the verified claims touch: the DMA
buffer registry, the monotone id counter, and a mock register file logging every
iowrite32 as an (offset, value) pair, newest first.  allocated_ids is a ghost
history of every buffer id handed out by npu_alloc_dma_buffer, newest first; it has
no influence on behaviour.  perf_operations is perf_counters.counters
at index NPU_PERF_OPERATIONS. -/
structure NpuDev where
  bufs : List NpuDmaBuf
  next_buffer_id : Nat
  allocated_ids : List Nat
  reg_log : List (Nat × Nat)
  perf_operations : Nat
deriving Repr, DecidableEq

/-- Model of iowrite32(value, dev->control_bar + offset): the stored value is the
32-bit truncation of the argument. -/
def iowrite32 (dev : NpuDev) (value offset : Nat) : NpuDev :=
  { dev with reg_log := (offset, value % U32_MOD) :: dev.reg_log }

/-- Walk of the dev->dma_buffers list (list_for_each_entry) looking for a
registered buffer with the given id; returns its position and the buffer. -/
def findReg : List NpuDmaBuf → Nat → Option (Nat × NpuDmaBuf)
  | [], _ => none
  | b :: rest, id =>
    if b.in_registry && b.buffer_id == id then some (0, b)
    else (findReg rest id).map (fun p => (p.1 + 1, p.2))

/-- Plain atomic_dec on the buffer object at a held position (the C code keeps a
pointer to the struct, which the model identifies by its stable list slot).  The
decrement never releases the backing memory (driver line 880 is atomic_dec, not
atomic_dec_and_test). -/
def decRefAt (bufs : List NpuDmaBuf) (i : Nat) : List NpuDmaBuf :=
  match bufs.get? i with
  | none => bufs
  | some b => bufs.set i { b with ref_count := b.ref_count - 1 }

/-- Model of npu_alloc_dma_buffer (driver lines 742-788).  handle stands for the
physical address chosen by dma_alloc_coherent, which the model treats as an
external input and as always succeeding (the ENOMEM paths are not modelled).
Returns (error code, new state, assigned buffer id). -/
def npu_alloc_dma_buffer (dev : NpuDev) (size flags handle : Nat) :
    Int × NpuDev × Option Nat :=
  if size < NPU_MIN_BUFFER_SIZE ∨ NPU_MAX_BUFFER_SIZE < size then
    (-EINVAL, dev, none)
  else
    let id := dev.next_buffer_id
    let buf : NpuDmaBuf :=
      { buffer_id := id, size := size, flags := flags, dma_handle := handle,
        ref_count := 1, in_registry := true, mem_alive := true }
    (0,
     { dev with
        bufs := dev.bufs ++ [buf],
        next_buffer_id := (dev.next_buffer_id + 1) % U32_MOD,
        allocated_ids := id :: dev.allocated_ids },
     some id)

/-- Model of npu_free_dma_buffer (driver lines 793-820): unconditionally unlinks the
first registered buffer with the id (list_del), then atomic_dec_and_test; the
backing memory is released only if the count reached zero.  Returns 0 even when the
count stays nonzero. -/
def npu_free_dma_buffer (dev : NpuDev) (buffer_id : Nat) : Int × NpuDev :=
  match findReg dev.bufs buffer_id with
  | none => (-ENOENT, dev)
  | some (i, buf) =>
    (0,
     { dev with
        bufs := dev.bufs.set i
          { buf with
              in_registry := false,
              ref_count := buf.ref_count - 1,
              mem_alive := if buf.ref_count - 1 = 0 then false else buf.mem_alive } })

/-- Result of the first half of npu_dma_transfer: either the call already finished
with an error code, or the transfer was started (registers programmed, reference
held) and completes in npu_dma_transfer_finish. -/
inductive DmaStart where
  | done (ret : Int)
  | inflight (token : Nat)
deriving Repr, DecidableEq

/-- Model of npu_dma_transfer (driver lines 825-882) up to its only suspension
point, the optional blocking wait.  It looks the buffer up, takes a reference
(atomic_inc), validates transfer->offset + transfer->size, computed in 64-bit
modular arithmetic, against buf->size, and on violation drops the reference at the
out label and returns -EINVAL with no register writes; otherwise it programs the
four DMA registers and is in flight.  The token is the held pointer to the buffer
object, modelled as its stable position in bufs. -/
def npu_dma_transfer_start (dev : NpuDev) (t : NpuDmaTransfer) : DmaStart × NpuDev :=
  match findReg dev.bufs t.buffer_id with
  | none => (.done (-ENOENT), dev)
  | some (i, buf) =>
    let dev1 := { dev with bufs := dev.bufs.set i { buf with ref_count := buf.ref_count + 1 } }
    if buf.size < (t.offset + t.size) % U64_MOD then
      (.done (-EINVAL), { dev1 with bufs := decRefAt dev1.bufs i })
    else
      let dev2 := iowrite32 dev1 ((buf.dma_handle + t.offset) % U64_MOD) REG_DMA_SRC
      let dev3 := iowrite32 dev2 t.user_addr REG_DMA_DST
      let dev4 := iowrite32 dev3 t.size REG_DMA_SIZE
      let dev5 := iowrite32 dev4 (t.direction ||| ((t.flags <<< 8) % U32_MOD)) REG_DMA_CTRL
      (.inflight i, dev5)

/-- Model of the tail of npu_dma_transfer after the optional blocking wait: the out
label performs a plain atomic_dec on the held buffer object and the call returns
the wait outcome (0, or -ETIMEDOUT from a bounded wait that expired). -/
def npu_dma_transfer_finish (dev : NpuDev) (token : Nat) (wait_ret : Int) :
    Int × NpuDev :=
  (wait_ret, { dev with bufs := decRefAt dev.bufs token })

/-- Packing of struct npu_instruction into the 32-bit instruction word
(driver lines 892-895). -/
def instructionWord (inst : NpuInstruction) : Nat :=
  ((inst.operation <<< 24) ||| ((inst.src1_addr &&& 0xFF) <<< 16) |||
    ((inst.src2_addr &&& 0xFF) <<< 8) ||| (inst.dst_addr &&& 0xFF)) % U32_MOD

/-- Model of npu_execute_instruction (driver lines 887-916): packs the instruction,
writes it to REG_DATA_ADDR and REG_DATA_SIZE, sets enable plus start (plus BIT(8)
for high priority) in REG_CONTROL, bumps the operations counter when profiling is
requested, and returns 0.  There is no operand validation and no buffer lookup of
any kind on this path. -/
def npu_execute_instruction (dev : NpuDev) (inst : NpuInstruction) : Int × NpuDev :=
  let dev1 := iowrite32 dev (instructionWord inst) REG_DATA_ADDR
  let dev2 := iowrite32 dev1 inst.size REG_DATA_SIZE
  let ctrl :=
    if inst.flags &&& NPU_INST_FLAG_HIGH_PRIORITY ≠ 0 then
      CTRL_ENABLE ||| CTRL_START ||| 256
    else CTRL_ENABLE ||| CTRL_START
  let dev3 := iowrite32 dev2 ctrl REG_CONTROL
  let dev4 :=
    if inst.flags &&& NPU_INST_FLAG_PROFILE ≠ 0 then
      { dev3 with perf_operations := (dev3.perf_operations + 1) % U64_MOD }
    else dev3
  (0, dev4)

/-- Model of fpga_npu_open (driver lines 419-437) acting on the device_open flag:
a second open while the flag is set fails -EBUSY and changes nothing. -/
def fpga_npu_open (device_open : Bool) : Int × Bool :=
  if device_open then (-EBUSY, device_open) else (0, true)

/-- Model of fpga_npu_release (driver lines 442-450): clears the flag. -/
def fpga_npu_release (_device_open : Bool) : Int × Bool :=
  (0, false)

/-- Results of n successive open attempts (serialized by dev_mutex) starting from
the given session flag. -/
def openRun : Bool → Nat → List Int
  | _, 0 => []
  | o, n + 1 => (fpga_npu_open o).1 :: openRun (fpga_npu_open o).2 n

/-- Model of the NPU_IOCTL_WAIT_COMPLETION handler (driver lines 603-624).
interrupt_at is the time, in milliseconds from the start of the wait, at which the
interrupt handler sets dev->interrupt_received (none = the flag is never set).
With timeout_ms = 0 the handler blocks in wait_event_interruptible until the flag
is set, which the model renders as returning none when the flag never arrives;
with a positive timeout_ms, wait_event_interruptible_timeout yields 0 on expiry,
mapped to -ETIMEDOUT, and a positive remainder on wakeup, mapped to 0.  Signal
delivery (the interruptible aspect) is outside the model. -/
def npu_ioctl_wait_completion (timeout_ms : Nat) (interrupt_at : Option Nat) :
    Option Int :=
  if timeout_ms = 0 then
    match interrupt_at with
    | some _ => some 0
    | none => none
  else
    match interrupt_at with
    | some t => if t ≤ timeout_ms then some 0 else some (-ETIMEDOUT)
    | none => some (-ETIMEDOUT)

/-- Model of the thermal classification and sampling performed by
npu_thermal_monitor (driver lines 950-970); temp and power are the u32 register
values read from REG_TEMPERATURE and REG_POWER. -/
structure NpuThermalInfo where
  temperature_celsius : Nat
  power_consumption_mw : Nat
  thermal_state : Nat
deriving Repr, DecidableEq

/-- Thermal monitor body: state 2 (Critical) for temperature > 85, state 1
(Warning) for temperature > 75, else state 0 (Normal). -/
def npu_thermal_monitor (temp power : Nat) : NpuThermalInfo :=
  { temperature_celsius := temp,
    power_consumption_mw := power,
    thermal_state := if 85 < temp then 2 else if 75 < temp then 1 else 0 }

/-- Reschedule period of the thermal timer: mod_timer(..., jiffies +
msecs_to_jiffies(5000)) at driver line 969. -/
def NPU_THERMAL_PERIOD_MS : Nat := 5000

/-- One ioread32 in the perf-counter snapshot, modelled against an abstract read
trace: reads n is the u32 value the hardware returns to the n-th register read. -/
def read_u32 (reads : Nat → Nat) (n : Nat) : Nat :=
  reads n % U32_MOD

/-- Cycle-counter composition in npu_get_performance_counters (driver lines
928-930): one read of the high half (REG_PERF_CYCLES + 4), then one read of the
low half (REG_PERF_CYCLES), composed as ((u64)hi << 32) | lo.  Returns the value
and the index of the next unexecuted read. -/
def npu_read_cycle_counter (reads : Nat → Nat) (i : Nat) : Nat × Nat :=
  ((read_u32 reads i <<< 32) ||| read_u32 reads (i + 1), i + 2)

/-- Modelled from the spec: the high-then-low-then-high-again torn-read avoidance
protocol that section 4.5 of the spec attributes to read_perf_counters, which is
missing from the source; it rereads the high half and retries the composition
whenever the high word changed between the two high reads.  fuel bounds the number
of retries. -/
def spec_read_cycle_counter_hlh (reads : Nat → Nat) : Nat → Nat → Option (Nat × Nat)
  | _, 0 => none
  | i, fuel + 1 =>
    let hi1 := read_u32 reads i
    let lo := read_u32 reads (i + 1)
    let hi2 := read_u32 reads (i + 2)
    if hi1 = hi2 then some ((hi1 <<< 32) ||| lo, i + 3)
    else spec_read_cycle_counter_hlh reads (i + 3) fuel

/-! Trace semantics of the buffer-management surface, used to characterize
reachable driver states (probe initializes next_buffer_id = 1 and an empty
registry, driver lines 222-226). -/

/-- One driver call affecting the modelled state.  dmaStart and dmaFinish are the
two halves of npu_dma_transfer around its blocking wait, so that a free operation
can be interleaved while a transfer holds its buffer reference. -/
inductive NpuOp where
  | alloc (size flags handle : Nat)
  | free (buffer_id : Nat)
  | dmaStart (t : NpuDmaTransfer)
  | dmaFinish (token : Nat) (wait_ret : Int)
  | execInst (inst : NpuInstruction)
deriving Repr

/-- State reached after one driver call, discarding the return value. -/
def stepOp (dev : NpuDev) : NpuOp → NpuDev
  | .alloc size flags handle => (npu_alloc_dma_buffer dev size flags handle).2.1
  | .free buffer_id => (npu_free_dma_buffer dev buffer_id).2
  | .dmaStart t => (npu_dma_transfer_start dev t).2
  | .dmaFinish token wait_ret => (npu_dma_transfer_finish dev token wait_ret).2
  | .execInst inst => (npu_execute_instruction dev inst).2

/-- Driver state right after fpga_npu_probe. -/
def initDev : NpuDev :=
  { bufs := [], next_buffer_id := 1, allocated_ids := [],
    reg_log := [], perf_operations := 0 }

/-- State after running a list of driver calls from the freshly probed device. -/
def runOps (ops : List NpuOp) : NpuDev :=
  ops.foldl stepOp initDev

/-! User-space runtime library (fpga_npu_lib.c), composed with this repository
driver as its device: the write() that pushes an instruction through the legacy
shared-buffer path lands in fpga_npu_write, which accepts any payload up to the
64 KiB shared buffer and returns its full length, so the library submit path
succeeds; the ioctl() behind npu_wait_completion, however, carries the raw
command word 1, which fpga_npu_ioctl rejects at its FPGA_NPU_MAGIC check, so
the wait always fails.  The submitted instructions, wait attempts and result
readbacks are logged so theorems can talk about them. -/

/-- Library error codes (fpga_npu_lib.h lines 20-25). -/
def NPU_SUCCESS : Int := 0
def NPU_ERROR_DEVICE : Int := -2
def NPU_ERROR_MEMORY : Int := -3
def NPU_ERROR_INVALID : Int := -5

/-- Linux errno returned by fpga_npu_ioctl for a command word whose type field
is not the driver magic (driver line 510). -/
def ENOTTY : Int := 25

/-- The ioctl magic of this driver: the character N (fpga_npu_enhanced.h
line 13). -/
def FPGA_NPU_MAGIC : Nat := 78

/-- The _IOC_TYPE field of a Linux ioctl command word: bits 8-15. -/
def ioctl_type (cmd : Nat) : Nat := (cmd >>> 8) &&& 0xFF

/-- The magic-number gate at the top of fpga_npu_ioctl (driver lines 509-512):
a command whose _IOC_TYPE is not FPGA_NPU_MAGIC is rejected with -ENOTTY before
any handler runs; what an accepted command would return is abstracted by the
handler_ret argument (no accepted command occurs in the modelled library
paths). -/
def fpga_npu_ioctl_dispatch (cmd : Nat) (handler_ret : Int) : Int :=
  if ioctl_type cmd = FPGA_NPU_MAGIC then handler_ret else -ENOTTY

/-- Operation code NPU_OP_MATMUL = 6 (fpga_npu_enhanced.h line 41). -/
def NPU_OP_MATMUL : Nat := 6

/-- Model of npu_tensor_t (fpga_npu_lib.h lines 46-51): dims is the 4-entry NCHW
array, size the byte size.  The data pointer is not modelled (tensors here are
always non-null with valid data). -/
structure NpuTensor where
  size : Nat
  dims : List Nat
  dtype : Nat
deriving Repr, DecidableEq

/-- Model of npu_instruction_t (fpga_npu_lib.h lines 66-73): params has 4 entries. -/
structure NpuLibInstruction where
  op : Nat
  src1_addr : Nat
  src2_addr : Nat
  dst_addr : Nat
  size : Nat
  params : List Nat
deriving Repr, DecidableEq

/-- Model of struct npu_context fields used by the legacy shared-buffer path
(fpga_npu_lib.c lines 37-44): the staging buffer size and bump offset, plus logs
of the externally visible actions. -/
structure NpuCtx where
  buffer_size : Nat
  buffer_offset : Nat
  submitted : List NpuLibInstruction
  waits : List Nat
  readbacks : List (Nat × Nat)
deriving Repr, DecidableEq

/-- Model of copy_tensor_to_buffer (fpga_npu_lib.c): bounds check against the
staging buffer, then bump allocation; returns (code, new context, offset the
tensor was staged at).  buffer_offset is a uint32_t, so the bump wraps mod 2^32. -/
def copy_tensor_to_buffer (ctx : NpuCtx) (t : NpuTensor) : Int × NpuCtx × Nat :=
  if ctx.buffer_size < ctx.buffer_offset + t.size then
    (NPU_ERROR_MEMORY, ctx, 0)
  else
    (NPU_SUCCESS,
     { ctx with buffer_offset := (ctx.buffer_offset + t.size) % U32_MOD },
     ctx.buffer_offset)

/-- Model of copy_tensor_from_buffer: bounds check, then the memcpy back into the
caller tensor, logged as a readback of (offset, size). -/
def copy_tensor_from_buffer (ctx : NpuCtx) (t : NpuTensor) (offset : Nat) :
    Int × NpuCtx :=
  if ctx.buffer_size < offset + t.size then (NPU_ERROR_MEMORY, ctx)
  else (NPU_SUCCESS, { ctx with readbacks := (offset, t.size) :: ctx.readbacks })

/-- Model of the library npu_execute_instruction (fpga_npu_lib.c lines 533-551):
copies the instruction into the staging buffer and write()s it to the device.
Against this repository the write reaches fpga_npu_write (driver lines
475-495), which copies up to dma_size = 64 KiB and returns the full length for
the 36-byte npu_instruction_t, so the success branch is the one the composed
program takes; the instruction is logged as submitted. -/
def lib_execute_instruction (ctx : NpuCtx) (inst : NpuLibInstruction) :
    Int × NpuCtx :=
  (NPU_SUCCESS, { ctx with submitted := inst :: ctx.submitted })

/-- Model of the library npu_wait_completion (fpga_npu_lib.c lines 586-600)
composed with this repository driver.  The function ignores its timeout_ms
argument and issues ioctl(ctx->fd, 1, 0); the raw command word 1 has
_IOC_TYPE 0, which differs from FPGA_NPU_MAGIC, so fpga_npu_ioctl rejects it
with -ENOTTY and the function returns NPU_ERROR_DEVICE.  The attempt is logged
with the timeout argument the caller passed. -/
def lib_wait_completion (ctx : NpuCtx) (timeout_ms : Nat) : Int × NpuCtx :=
  let ioctl_ret := fpga_npu_ioctl_dispatch 1 0
  if ioctl_ret < 0 then
    (NPU_ERROR_DEVICE, { ctx with waits := timeout_ms :: ctx.waits })
  else (NPU_SUCCESS, { ctx with waits := timeout_ms :: ctx.waits })

/-- Model of npu_matrix_multiply (fpga_npu_lib.c lines 623-667): resets the bump
offset, stages A, B and C, builds one MATMUL instruction with
params = [a.dims[2], a.dims[3], b.dims[3], 0] (M, K, N), submits it, waits with
timeout 0, and copies C back.  The uint32_t size field truncates c.size.  There is
no comparison of any dimension of A against any dimension of B anywhere in the
function. -/
def npu_matrix_multiply (ctx0 : NpuCtx) (a b c : NpuTensor) : Int × NpuCtx :=
  let ctx := { ctx0 with buffer_offset := 0 }
  let ra := copy_tensor_to_buffer ctx a
  if ra.1 ≠ NPU_SUCCESS then (ra.1, ra.2.1) else
  let rb := copy_tensor_to_buffer ra.2.1 b
  if rb.1 ≠ NPU_SUCCESS then (rb.1, rb.2.1) else
  let rc := copy_tensor_to_buffer rb.2.1 c
  if rc.1 ≠ NPU_SUCCESS then (rc.1, rc.2.1) else
  let inst : NpuLibInstruction :=
    { op := NPU_OP_MATMUL, src1_addr := ra.2.2, src2_addr := rb.2.2,
      dst_addr := rc.2.2, size := c.size % U32_MOD,
      params := [a.dims.getD 2 0, a.dims.getD 3 0, b.dims.getD 3 0, 0] }
  let re := lib_execute_instruction rc.2.1 inst
  if re.1 ≠ NPU_SUCCESS then (re.1, re.2) else
  let rw1 := lib_wait_completion re.2 0
  if rw1.1 ≠ NPU_SUCCESS then (rw1.1, rw1.2) else
  copy_tensor_from_buffer rw1.2 c rc.2.2

/-! Auxiliary lemmas about the registry walk and stable-slot updates. -/

/-- A successful registry walk returns an in-range slot holding the matching
buffer. -/
theorem findReg_get? {bufs : List NpuDmaBuf} {id i : Nat} {buf : NpuDmaBuf}
    (h : findReg bufs id = some (i, buf)) :
    bufs.get? i = some buf ∧ (buf.in_registry && buf.buffer_id == id) = true := by
  induction bufs generalizing i with
  | nil => simp [findReg] at h
  | cons b rest ih =>
    by_cases hb : (b.in_registry && b.buffer_id == id) = true
    · rw [findReg, if_pos hb] at h
      have he := Option.some.inj h
      have hi : (0 : Nat) = i := congrArg Prod.fst he
      have hbuf : b = buf := congrArg Prod.snd he
      subst hi; subst hbuf
      exact ⟨rfl, hb⟩
    · rw [findReg, if_neg hb] at h
      obtain ⟨⟨j, buf2⟩, hj, hmk⟩ := Option.map_eq_some'.mp h
      have hi : j + 1 = i := congrArg Prod.fst hmk
      have hbuf : buf2 = buf := congrArg Prod.snd hmk
      subst hi; subst hbuf
      exact ⟨(ih hj).1, (ih hj).2⟩

/-- Replacing the found slot by another matching buffer keeps the walk result at
the same slot. -/
theorem findReg_set_match {bufs : List NpuDmaBuf} {id i : Nat} {buf : NpuDmaBuf}
    (h : findReg bufs id = some (i, buf)) {b2 : NpuDmaBuf}
    (hb2 : (b2.in_registry && b2.buffer_id == id) = true) :
    findReg (bufs.set i b2) id = some (i, b2) := by
  induction bufs generalizing i with
  | nil => simp [findReg] at h
  | cons b rest ih =>
    by_cases hb : (b.in_registry && b.buffer_id == id) = true
    · rw [findReg, if_pos hb] at h
      have hi : (0 : Nat) = i := congrArg Prod.fst (Option.some.inj h)
      subst hi
      simp [List.set, findReg, hb2]
    · rw [findReg, if_neg hb] at h
      obtain ⟨⟨j, buf2⟩, hj, hmk⟩ := Option.map_eq_some'.mp h
      have hi : j + 1 = i := congrArg Prod.fst hmk
      have hbuf : buf2 = buf := congrArg Prod.snd hmk
      subst hi; subst hbuf
      simp only [List.set, findReg, if_neg hb, ih hj, Option.map_some']

/-- If no buffer in the list matches, the walk fails. -/
theorem findReg_none_of_countP_zero {bufs : List NpuDmaBuf} {id : Nat}
    (h : bufs.countP (fun b => b.in_registry && b.buffer_id == id) = 0) :
    findReg bufs id = none := by
  induction bufs with
  | nil => rfl
  | cons b rest ih =>
    rw [List.countP_cons] at h
    by_cases hb : (b.in_registry && b.buffer_id == id) = true
    · rw [if_pos hb] at h; omega
    · rw [if_neg hb] at h
      rw [findReg, if_neg hb, ih (by omega)]
      rfl

/-- When the matching buffer is unique, overwriting its slot with a
non-matching buffer makes the walk fail. -/
theorem findReg_set_unmatch {bufs : List NpuDmaBuf} {id i : Nat} {buf : NpuDmaBuf}
    (h : findReg bufs id = some (i, buf))
    (huniq : bufs.countP (fun b => b.in_registry && b.buffer_id == id) ≤ 1)
    {b2 : NpuDmaBuf} (hb2 : (b2.in_registry && b2.buffer_id == id) = false) :
    findReg (bufs.set i b2) id = none := by
  induction bufs generalizing i with
  | nil => simp [findReg] at h
  | cons b rest ih =>
    rw [List.countP_cons] at huniq
    by_cases hb : (b.in_registry && b.buffer_id == id) = true
    · rw [findReg, if_pos hb] at h
      have hi : (0 : Nat) = i := congrArg Prod.fst (Option.some.inj h)
      subst hi
      rw [if_pos hb] at huniq
      have hz : rest.countP (fun b => b.in_registry && b.buffer_id == id) = 0 := by
        omega
      simp only [List.set, findReg, hb2, Bool.false_eq_true, if_false,
        findReg_none_of_countP_zero hz, Option.map_none']
    · rw [findReg, if_neg hb] at h
      obtain ⟨⟨j, buf2⟩, hj, hmk⟩ := Option.map_eq_some'.mp h
      have hi : j + 1 = i := congrArg Prod.fst hmk
      have hbuf : buf2 = buf := congrArg Prod.snd hmk
      subst hi; subst hbuf
      rw [if_neg hb] at huniq
      have hrest : rest.countP (fun b => b.in_registry && b.buffer_id == id) ≤ 1 := by
        omega
      simp only [List.set, findReg, if_neg hb, ih hj hrest, Option.map_none']

/-- Writing back a value a slot already holds changes nothing. -/
theorem set_get?_self {l : List NpuDmaBuf} {i : Nat} {b : NpuDmaBuf}
    (h : l.get? i = some b) : l.set i b = l := by
  induction l generalizing i with
  | nil => simp at h
  | cons x rest ih =>
    cases i with
    | zero =>
      have hx : x = b := Option.some.inj h
      subst hx; rfl
    | succ j =>
      show x :: rest.set j b = x :: rest
      exact congrArg (x :: ·) (ih h)

/-- Reading a slot that was just written returns the written value. -/
theorem get?_set_self {l : List NpuDmaBuf} {i : Nat} (hlen : i < l.length)
    (b : NpuDmaBuf) : (l.set i b).get? i = some b := by
  induction l generalizing i with
  | nil => simp at hlen
  | cons x rest ih =>
    cases i with
    | zero => rfl
    | succ j => exact ih (by simpa using hlen)

/-- The atomic_inc taken by npu_dma_transfer followed by the atomic_dec at its
out label restores the list exactly (the C code increments and decrements the
same struct through a held pointer). -/
theorem decRefAt_set_inc {l : List NpuDmaBuf} {i : Nat} {b : NpuDmaBuf}
    (h : l.get? i = some b) :
    decRefAt (l.set i { b with ref_count := b.ref_count + 1 }) i = l := by
  have hlen : i < l.length := (List.get?_eq_some.mp h).1
  have hget := get?_set_self hlen ({ b with ref_count := b.ref_count + 1 })
  simp only [decRefAt, hget, List.set_set]
  have hr : b.ref_count + 1 - 1 = b.ref_count := by ring
  rw [hr]
  exact set_get?_self h

/-! Claim C4: wait-completion semantics. -/

/-- C4: in the NPU_IOCTL_WAIT_COMPLETION handler, timeout_ms = 0 waits
indefinitely and returns (successfully) only once the interrupt handler has set
the completion flag, never returning while the flag stays unset; a positive
timeout_ms bounds the wait, returning -ETIMEDOUT exactly when the flag is not
set within the bound and 0 exactly when it is. -/
theorem c4_wait_completion_semantics :
    npu_ioctl_wait_completion 0 none = none ∧
    (∀ t : Nat, npu_ioctl_wait_completion 0 (some t) = some 0) ∧
    (∀ timeout_ms : Nat, 0 < timeout_ms → ∀ interrupt_at : Option Nat,
      (npu_ioctl_wait_completion timeout_ms interrupt_at = some 0 ↔
        ∃ t, interrupt_at = some t ∧ t ≤ timeout_ms) ∧
      (npu_ioctl_wait_completion timeout_ms interrupt_at = some (-ETIMEDOUT) ↔
        ∀ t, interrupt_at = some t → timeout_ms < t)) := by
  refine ⟨rfl, fun t => rfl, fun tm htm ia => ?_⟩
  have htm0 : ¬tm = 0 := by omega
  cases ia with
  | none =>
    simp only [npu_ioctl_wait_completion, if_neg htm0]
    constructor
    · constructor
      · intro h
        have := Option.some.inj h
        norm_num [ETIMEDOUT] at this
      · rintro ⟨t, ht, _⟩; cases ht
    · constructor
      · intro _ t ht; cases ht
      · intro _; trivial
  | some t =>
    simp only [npu_ioctl_wait_completion, if_neg htm0]
    by_cases hle : t ≤ tm
    · rw [if_pos hle]
      constructor
      · constructor
        · intro _; exact ⟨t, rfl, hle⟩
        · intro _; rfl
      · constructor
        · intro h
          have := Option.some.inj h
          norm_num [ETIMEDOUT] at this
        · intro h
          have := h t rfl
          omega
    · rw [if_neg hle]
      constructor
      · constructor
        · intro h
          have := Option.some.inj h
          norm_num [ETIMEDOUT] at this
        · rintro ⟨u, hu, hle2⟩
          cases Option.some.inj hu
          omega
      · constructor
        · intro _ u hu
          cases Option.some.inj hu
          omega
        · intro _; rfl

/-- Witness for c4_wait_completion_semantics at timeout 5 ms with the interrupt
arriving at 3 ms, respectively never. -/
theorem c4_wait_completion_semantics_witness :
    npu_ioctl_wait_completion 5 (some 3) = some 0 ∧
    npu_ioctl_wait_completion 5 none = some (-ETIMEDOUT) := by
  constructor
  · exact ((c4_wait_completion_semantics.2.2 5 (by norm_num) (some 3)).1).mpr
      ⟨3, rfl, by norm_num⟩
  · exact ((c4_wait_completion_semantics.2.2 5 (by norm_num) none).2).mpr
      (fun t ht => by cases ht)

/-! Claim C5: thermal classification. -/

/-- C5 counterexample: at the boundary temperature of exactly 75 the thermal
monitor classifies the state as 0 (Normal), not 1 (Warning), because the code
tests temperature > 75; the claimed inclusive Warning range 75-85 is wrong at
its lower end. -/
theorem c5_thermal_counterexample :
    (npu_thermal_monitor 75 0).thermal_state = 0 ∧
    ¬(npu_thermal_monitor 75 0).thermal_state = 1 := by
  constructor <;> decide

/-- C5 amended: the periodic thermal monitor (fixed 5 s period) classifies the
sampled temperature as Normal (state 0) for temperatures up to and including
75, Warning (state 1) for temperatures 76 to 85 inclusive, and Critical
(state 2) above 85. -/
theorem c5_thermal_classification (temp power : Nat) :
    NPU_THERMAL_PERIOD_MS = 5000 ∧
    (npu_thermal_monitor temp power).temperature_celsius = temp ∧
    (temp ≤ 75 → (npu_thermal_monitor temp power).thermal_state = 0) ∧
    (76 ≤ temp → temp ≤ 85 → (npu_thermal_monitor temp power).thermal_state = 1) ∧
    (86 ≤ temp → (npu_thermal_monitor temp power).thermal_state = 2) := by
  refine ⟨rfl, rfl, ?_, ?_, ?_⟩
  · intro h
    simp only [npu_thermal_monitor]
    rw [if_neg (by omega), if_neg (by omega)]
  · intro h1 h2
    simp only [npu_thermal_monitor]
    rw [if_neg (by omega), if_pos (by omega)]
  · intro h
    simp only [npu_thermal_monitor]
    rw [if_pos (by omega)]

/-- Witness for c5_thermal_classification at 70, 80 and 90 degrees. -/
theorem c5_thermal_classification_witness :
    (npu_thermal_monitor 70 0).thermal_state = 0 ∧
    (npu_thermal_monitor 80 0).thermal_state = 1 ∧
    (npu_thermal_monitor 90 0).thermal_state = 2 :=
  ⟨(c5_thermal_classification 70 0).2.2.1 (by norm_num),
   (c5_thermal_classification 80 0).2.2.2.1 (by norm_num) (by norm_num),
   (c5_thermal_classification 90 0).2.2.2.2 (by norm_num)⟩

/-! Claim C6: cycle counter composition. -/

/-- Read trace on which the high half changes between position 0 and position 2:
reads are 1, 5, 2, 2, 7, 2, ... (the spec protocol would retry and compose from
positions 3 and 4). -/
def c6Reads : Nat → Nat := fun i => [1, 5, 2, 2, 7, 2].getD i 2

/-- C6 counterexample: the driver composes the cycle counter from exactly one
high read and one low read (consuming reads 0 and 1 and yielding
(1 <<< 32) ||| 5 = 4294967301), with no third read and no retry, while the
claimed high-low-high retry protocol on the same trace detects the changed high
word (read 0 = 1, read 2 = 2), retries, and yields 8589934599 having consumed
six reads. -/
theorem c6_cycle_counter_counterexample :
    npu_read_cycle_counter c6Reads 0 = (4294967301, 2) ∧
    spec_read_cycle_counter_hlh c6Reads 0 2 = some (8589934599, 6) ∧
    ¬c6Reads 0 = c6Reads 2 ∧
    ¬(4294967301 : Nat) = 8589934599 := by
  refine ⟨by decide, by decide, by decide, by decide⟩

/-- C6 amended: npu_get_performance_counters composes the 64-bit cycle counter
from a single read of the high half followed by a single read of the low half:
the result depends only on those two reads (so there is no second high read and
no retry), exactly two reads are consumed, and the composition agrees with the
high-low-high retry protocol of the spec precisely when the high word is stable
across the window. -/
theorem c6_cycle_counter_two_reads_no_retry :
    (∀ (r1 r2 : Nat → Nat) (i : Nat), r1 i = r2 i → r1 (i + 1) = r2 (i + 1) →
      npu_read_cycle_counter r1 i = npu_read_cycle_counter r2 i) ∧
    (∀ (r : Nat → Nat) (i : Nat), (npu_read_cycle_counter r i).2 = i + 2) ∧
    (∀ (r : Nat → Nat) (i fuel : Nat), read_u32 r i = read_u32 r (i + 2) →
      spec_read_cycle_counter_hlh r i (fuel + 1) =
        some ((npu_read_cycle_counter r i).1, i + 3)) := by
  refine ⟨?_, fun r i => rfl, ?_⟩
  · intro r1 r2 i h0 h1
    simp only [npu_read_cycle_counter, read_u32, h0, h1]
  · intro r i fuel h
    simp only [spec_read_cycle_counter_hlh, npu_read_cycle_counter]
    rw [if_pos h]

/-- Witness for c6_cycle_counter_two_reads_no_retry on the constant trace 7. -/
theorem c6_cycle_counter_two_reads_no_retry_witness :
    npu_read_cycle_counter (fun _ => 7) 0 =
      npu_read_cycle_counter (fun n => 7 + 0 * n) 0 ∧
    (npu_read_cycle_counter (fun _ => 7) 0).2 = 2 ∧
    spec_read_cycle_counter_hlh (fun _ => 7) 0 1 =
      some ((npu_read_cycle_counter (fun _ => 7) 0).1, 3) :=
  ⟨c6_cycle_counter_two_reads_no_retry.1 (fun _ => 7) (fun n => 7 + 0 * n) 0
      (by norm_num) (by norm_num),
   c6_cycle_counter_two_reads_no_retry.2.1 (fun _ => 7) 0,
   c6_cycle_counter_two_reads_no_retry.2.2 (fun _ => 7) 0 0 rfl⟩

/-! Claim C8: single-session open/close. -/

/-- Every open attempt against an already-open device fails with -EBUSY. -/
theorem openRun_busy (n : Nat) : openRun true n = List.replicate n (-EBUSY) := by
  induction n with
  | zero => rfl
  | succ m ih =>
    show (fpga_npu_open true).1 :: openRun (fpga_npu_open true).2 m = _
    rw [show fpga_npu_open true = (-EBUSY, true) from rfl, ih]
    rfl

/-- C8: at most one session can be open: an open while a session is open fails
-EBUSY leaving the state unchanged; after a close the next open succeeds; and a
run of n serialized open attempts against a closed device produces exactly one
success and n - 1 -EBUSY failures. -/
theorem c8_single_session :
    fpga_npu_open true = (-EBUSY, true) ∧
    (∀ o : Bool, fpga_npu_open (fpga_npu_release o).2 = (0, true)) ∧
    (∀ n : Nat, 1 ≤ n →
      (openRun false n).count 0 = 1 ∧ (openRun false n).count (-EBUSY) = n - 1) := by
  refine ⟨rfl, fun o => rfl, fun n hn => ?_⟩
  obtain ⟨m, rfl⟩ : ∃ m, n = m + 1 := ⟨n - 1, by omega⟩
  have hrun : openRun false (m + 1) = 0 :: List.replicate m (-EBUSY) := by
    simp only [openRun, fpga_npu_open]
    rw [if_neg (by simp)]
    simp only [openRun_busy]
  rw [hrun]
  constructor
  · rw [List.count_cons_self, List.count_replicate]
    norm_num [EBUSY]
  · rw [List.count_cons_of_ne (by norm_num [EBUSY]), List.count_replicate]
    simp

/-- Witness for c8_single_session with three open attempts. -/
theorem c8_single_session_witness :
    (openRun false 3).count 0 = 1 ∧ (openRun false 3).count (-EBUSY) = 2 := by
  have h := c8_single_session.2.2 3 (by norm_num)
  simpa using h

/-! Claim C9: 64-bit modular bounds validation of DMA transfers. -/

/-- Registered buffer of size 8192 for the C9 wraparound input. -/
def bufC9 : NpuDmaBuf :=
  { buffer_id := 1, size := 8192, flags := 0, dma_handle := 0,
    ref_count := 1, in_registry := true, mem_alive := true }

/-- Device holding only bufC9. -/
def devC9 : NpuDev :=
  { bufs := [bufC9], next_buffer_id := 2, allocated_ids := [1],
    reg_log := [], perf_operations := 0 }

/-- Transfer whose offset (2^64 - 4096) and size (12288) each exceed the buffer
size 8192, while their sum wraps modulo 2^64 to 8192. -/
def tC9 : NpuDmaTransfer :=
  { buffer_id := 1, offset := 18446744073709547520, size := 12288,
    direction := 0, flags := 0, user_addr := 0, timeout_ms := 0 }

/-- C9: for a registered buffer, npu_dma_transfer proceeds to program the DMA
registers exactly when (offset + size) computed modulo 2^64 is at most the
buffer size; in particular the concrete transfer tC9, whose offset and size are
each individually larger than the 8192-byte buffer, passes validation because
the wrapped sum is 8192. -/
theorem c9_dma_wrapped_bounds :
    (∀ (dev : NpuDev) (t : NpuDmaTransfer) (i : Nat) (buf : NpuDmaBuf),
      findReg dev.bufs t.buffer_id = some (i, buf) →
      ((npu_dma_transfer_start dev t).1 = DmaStart.inflight i ↔
        (t.offset + t.size) % U64_MOD ≤ buf.size)) ∧
    (bufC9.size < tC9.offset ∧ bufC9.size < tC9.size ∧
      (npu_dma_transfer_start devC9 tC9).1 = DmaStart.inflight 0) := by
  constructor
  · intro dev t i buf hfind
    unfold npu_dma_transfer_start
    rw [hfind]
    dsimp only
    by_cases hlt : buf.size < (t.offset + t.size) % U64_MOD
    · rw [if_pos hlt]
      constructor
      · intro h; exact DmaStart.noConfusion h
      · intro h; omega
    · rw [if_neg hlt]
      constructor
      · intro _; omega
      · intro _; rfl
  · refine ⟨by decide, by decide, by decide⟩

/-- Witness for the universally quantified part of c9_dma_wrapped_bounds at the
concrete device devC9. -/
theorem c9_dma_wrapped_bounds_witness :
    (npu_dma_transfer_start devC9 tC9).1 = DmaStart.inflight 0 ↔
      (tC9.offset + tC9.size) % U64_MOD ≤ bufC9.size :=
  c9_dma_wrapped_bounds.1 devC9 tC9 0 bufC9 (by decide)

/-! Claim C1: operand-bounds validation before register writes. -/

/-- Registered 4096-byte buffer present while the oversized instruction is
submitted. -/
def bufC1 : NpuDmaBuf :=
  { buffer_id := 1, size := 4096, flags := 0, dma_handle := 0,
    ref_count := 1, in_registry := true, mem_alive := true }

/-- Device holding only bufC1 with an empty register log. -/
def devC1 : NpuDev :=
  { bufs := [bufC1], next_buffer_id := 2, allocated_ids := [1],
    reg_log := [], perf_operations := 0 }

/-- Instruction whose transfer size 1000000 exceeds the size of the only
registered buffer (4096 bytes) at operand offset 0. -/
def instC1 : NpuInstruction :=
  { operation := 6, src1_addr := 0, src2_addr := 0, dst_addr := 0,
    size := 1000000, params := [0, 0, 0, 0, 0, 0, 0, 0], flags := 0 }

/-- C1 counterexample: submitting an instruction whose operand range
(offset 0 + size 1000000) exceeds the referenced buffer size (4096) returns 0,
not -EINVAL, and performs three register writes instead of zero;
npu_execute_instruction contains no bounds validation whatsoever. -/
theorem c1_unvalidated_submission_counterexample :
    (npu_execute_instruction devC1 instC1).1 = 0 ∧
    ¬(npu_execute_instruction devC1 instC1).1 = -EINVAL ∧
    ((npu_execute_instruction devC1 instC1).2).reg_log.length = 3 ∧
    bufC1.size < instC1.size ∧ devC1.reg_log = [] :=
  ⟨by decide, by decide, by decide, by decide, rfl⟩

/-- C1 amended: instruction submission (npu_execute_instruction) performs no
operand-bounds validation at all: it returns success and performs exactly three
register writes for every instruction.  Bounds validation exists only on the
DMA-transfer path, where a transfer whose offset + size (computed in 64-bit
modular arithmetic) exceeds the referenced buffer size is rejected with -EINVAL
before any register write and with no other side effect: the returned state is
exactly the initial state (the transient refcount increment is undone by the
decrement at the out label). -/
theorem c1_validation_only_on_dma_path :
    (∀ (dev : NpuDev) (inst : NpuInstruction),
      (npu_execute_instruction dev inst).1 = 0 ∧
      ((npu_execute_instruction dev inst).2).reg_log.length =
        dev.reg_log.length + 3) ∧
    (∀ (dev : NpuDev) (t : NpuDmaTransfer) (i : Nat) (buf : NpuDmaBuf),
      findReg dev.bufs t.buffer_id = some (i, buf) →
      buf.size < (t.offset + t.size) % U64_MOD →
      npu_dma_transfer_start dev t = (DmaStart.done (-EINVAL), dev)) := by
  constructor
  · intro dev inst
    constructor
    · rfl
    · unfold npu_execute_instruction iowrite32
      dsimp only
      split <;> simp
  · intro dev t i buf hfind hviol
    unfold npu_dma_transfer_start
    rw [hfind]
    dsimp only
    rw [if_pos hviol]
    have hget : dev.bufs.get? i = some buf := (findReg_get? hfind).1
    rw [decRefAt_set_inc hget]

/-- Witness for c1_validation_only_on_dma_path: a DMA transfer of offset 4096
and size 1 against the 4096-byte buffer bufC1 is rejected with -EINVAL and no
state change, while instruction submission on the same device returns 0. -/
def tC1 : NpuDmaTransfer :=
  { buffer_id := 1, offset := 4096, size := 1, direction := 0, flags := 0,
    user_addr := 0, timeout_ms := 0 }

/-- Witness applying c1_validation_only_on_dma_path at devC1, instC1 and tC1. -/
theorem c1_validation_only_on_dma_path_witness :
    (npu_execute_instruction devC1 instC1).1 = 0 ∧
    npu_dma_transfer_start devC1 tC1 = (DmaStart.done (-EINVAL), devC1) :=
  ⟨(c1_validation_only_on_dma_path.1 devC1 instC1).1,
   c1_validation_only_on_dma_path.2 devC1 tC1 0 bufC1 (by decide) (by decide)⟩

/-! Claim C2: reference counting over submission, free and completion. -/

/-- Registered buffer with reference count 1, alive, used by the C2
counterexample. -/
def bufC2 : NpuDmaBuf :=
  { buffer_id := 1, size := 4096, flags := 0, dma_handle := 0,
    ref_count := 1, in_registry := true, mem_alive := true }

/-- Device holding only bufC2. -/
def devC2 : NpuDev :=
  { bufs := [bufC2], next_buffer_id := 2, allocated_ids := [1],
    reg_log := [], perf_operations := 0 }

/-- Instruction addressing offset 0 of the registered buffer. -/
def instC2 : NpuInstruction :=
  { operation := 1, src1_addr := 0, src2_addr := 0, dst_addr := 0,
    size := 64, params := [0, 0, 0, 0, 0, 0, 0, 0], flags := 0 }

/-- C2 counterexample: submitting an instruction while buffer 1 is registered
with reference count 1 leaves the whole buffer list, including every reference
count, unchanged (the count stays 1); the claim requires the count of every
buffer the instruction touches to be incremented at submission. -/
theorem c2_no_refcount_on_submit_counterexample :
    (npu_execute_instruction devC2 instC2).1 = 0 ∧
    ((npu_execute_instruction devC2 instC2).2).bufs = devC2.bufs ∧
    ((npu_execute_instruction devC2 instC2).2).bufs.map (fun b => b.ref_count) =
      [1] :=
  ⟨by decide, rfl, by decide⟩

/-- C2 amended: npu_execute_instruction never touches buffer reference counts;
a reference is taken only by the DMA-transfer path, which increments the count
of the referenced buffer when the transfer starts and decrements it with a
plain atomic_dec when the call finishes.  A free issued while the transfer is
in flight unlinks the buffer from the registry but does not release the backing
memory, because the held reference keeps the count positive; the finish-side
decrement, however, is not atomic_dec_and_test and never releases memory, so
the backing memory of a buffer freed while in flight stays allocated even once
its reference count reaches zero (it is leaked rather than released). -/
theorem c2_refcount_lifecycle
    (dev : NpuDev) (t : NpuDmaTransfer) (i : Nat) (buf : NpuDmaBuf)
    (hfind : findReg dev.bufs t.buffer_id = some (i, buf))
    (hok : ¬buf.size < (t.offset + t.size) % U64_MOD)
    (hpos : 0 < buf.ref_count) :
    (∀ (d : NpuDev) (inst : NpuInstruction),
      ((npu_execute_instruction d inst).2).bufs = d.bufs) ∧
    (npu_dma_transfer_start dev t).1 = DmaStart.inflight i ∧
    ((npu_dma_transfer_start dev t).2).bufs.get? i =
      some { buf with ref_count := buf.ref_count + 1 } ∧
    (npu_free_dma_buffer ((npu_dma_transfer_start dev t).2) t.buffer_id).1 = 0 ∧
    ((npu_free_dma_buffer ((npu_dma_transfer_start dev t).2) t.buffer_id).2).bufs.get? i =
      some { buf with in_registry := false } ∧
    ((npu_dma_transfer_finish
        ((npu_free_dma_buffer ((npu_dma_transfer_start dev t).2) t.buffer_id).2)
        i 0).2).bufs.get? i =
      some { buf with in_registry := false, ref_count := buf.ref_count - 1 } := by
  have hget : dev.bufs.get? i = some buf := (findReg_get? hfind).1
  have hmatch : (buf.in_registry && buf.buffer_id == t.buffer_id) = true :=
    (findReg_get? hfind).2
  have hlen : i < dev.bufs.length := (List.get?_eq_some.mp hget).1
  have hstart1 : (npu_dma_transfer_start dev t).1 = DmaStart.inflight i := by
    unfold npu_dma_transfer_start
    rw [hfind]
    dsimp only
    rw [if_neg hok]
  have hstart2 : ((npu_dma_transfer_start dev t).2).bufs =
      dev.bufs.set i { buf with ref_count := buf.ref_count + 1 } := by
    unfold npu_dma_transfer_start
    rw [hfind]
    dsimp only
    rw [if_neg hok]
    rfl
  have hmatch1 :
      (({ buf with ref_count := buf.ref_count + 1 } : NpuDmaBuf).in_registry &&
        ({ buf with ref_count := buf.ref_count + 1 } : NpuDmaBuf).buffer_id ==
          t.buffer_id) = true := hmatch
  have hfind1 : findReg (((npu_dma_transfer_start dev t).2).bufs) t.buffer_id =
      some (i, { buf with ref_count := buf.ref_count + 1 }) := by
    rw [hstart2]
    exact findReg_set_match hfind hmatch1
  have hrc : buf.ref_count + 1 - 1 = buf.ref_count := by ring
  have hrz : ¬buf.ref_count + 1 - 1 = 0 := by omega
  have hfreed :
      ({ buf with ref_count := buf.ref_count + 1 } : NpuDmaBuf).in_registry = false →
      False := by
    intro hc
    rw [Bool.and_eq_true] at hmatch
    simp [hmatch.1] at hc
  have hfree : npu_free_dma_buffer ((npu_dma_transfer_start dev t).2) t.buffer_id =
      (0, { (npu_dma_transfer_start dev t).2 with
              bufs := (((npu_dma_transfer_start dev t).2).bufs.set i
                { buf with in_registry := false }) }) := by
    unfold npu_free_dma_buffer
    rw [hfind1]
    dsimp only
    rw [if_neg hrz, hrc]
  have hlen1 : i < (((npu_dma_transfer_start dev t).2).bufs).length := by
    rw [hstart2, List.length_set]
    exact hlen
  refine ⟨fun d inst => ?_, hstart1, ?_, ?_, ?_, ?_⟩
  · unfold npu_execute_instruction iowrite32
    dsimp only
    split <;> rfl
  · rw [hstart2]
    exact get?_set_self hlen _
  · rw [hfree]
  · rw [hfree]
    dsimp only
    rw [hstart2, List.set_set]
    exact get?_set_self hlen _
  · rw [hfree]
    unfold npu_dma_transfer_finish
    dsimp only
    rw [hstart2, List.set_set]
    have hget2 : (dev.bufs.set i ({ buf with in_registry := false } : NpuDmaBuf)).get? i =
        some ({ buf with in_registry := false } : NpuDmaBuf) :=
      get?_set_self hlen _
    unfold decRefAt
    rw [hget2]
    dsimp only
    rw [List.set_set]
    exact get?_set_self hlen _

/-- Witness applying c2_refcount_lifecycle at devC2 and a valid transfer of
offset 0 and size 64 into the 4096-byte buffer. -/
def tC2 : NpuDmaTransfer :=
  { buffer_id := 1, offset := 0, size := 64, direction := 0, flags := 0,
    user_addr := 0, timeout_ms := 0 }

/-- Witness for c2_refcount_lifecycle: the in-flight reference makes the count
2, the concurrent free leaves the memory allocated with count back to 1, and
the completion decrement brings the count to 0 without releasing the memory. -/
theorem c2_refcount_lifecycle_witness :
    (npu_dma_transfer_start devC2 tC2).1 = DmaStart.inflight 0 ∧
    ((npu_dma_transfer_start devC2 tC2).2).bufs.get? 0 =
      some { bufC2 with ref_count := bufC2.ref_count + 1 } ∧
    (npu_free_dma_buffer ((npu_dma_transfer_start devC2 tC2).2) 1).1 = 0 ∧
    ((npu_free_dma_buffer ((npu_dma_transfer_start devC2 tC2).2) 1).2).bufs.get? 0 =
      some { bufC2 with in_registry := false } ∧
    ((npu_dma_transfer_finish
        ((npu_free_dma_buffer ((npu_dma_transfer_start devC2 tC2).2) 1).2)
        0 0).2).bufs.get? 0 =
      some { bufC2 with in_registry := false, ref_count := bufC2.ref_count - 1 } := by
  obtain ⟨_, h2, h3, h4, h5, h6⟩ :=
    c2_refcount_lifecycle devC2 tC2 0 bufC2 (by decide) (by decide) (by decide)
  exact ⟨h2, h3, h4, h5, h6⟩

/-! Claim C10: free unlinks unconditionally; later operations see NotFound. -/

/-- The buffer record as npu_free_dma_buffer leaves it: unlinked, decremented,
and with the backing memory released only if the count reached zero. -/
def freedBuf (buf : NpuDmaBuf) : NpuDmaBuf :=
  { buf with
      in_registry := false,
      ref_count := buf.ref_count - 1,
      mem_alive := if buf.ref_count - 1 = 0 then false else buf.mem_alive }

/-- C10: a successful free always returns 0 and unlinks the buffer from the
registry; when the remaining reference count is nonzero the backing memory is
not released (the buffer object survives with mem_alive untouched, merely
unlinked); and afterwards both a second free and a DMA transfer naming the same
buffer_id fail with -ENOENT and change nothing.  huniq states that at most one
registered buffer carries the id, which holds in every reachable state because
assigned ids are distinct. -/
theorem c10_free_unlinks_then_not_found
    (dev : NpuDev) (id : Nat) (i : Nat) (buf : NpuDmaBuf)
    (hfind : findReg dev.bufs id = some (i, buf))
    (huniq : dev.bufs.countP (fun b => b.in_registry && b.buffer_id == id) ≤ 1) :
    (npu_free_dma_buffer dev id).1 = 0 ∧
    findReg ((npu_free_dma_buffer dev id).2).bufs id = none ∧
    (¬buf.ref_count = 1 →
      ((npu_free_dma_buffer dev id).2).bufs.get? i =
        some { buf with in_registry := false, ref_count := buf.ref_count - 1 }) ∧
    npu_free_dma_buffer ((npu_free_dma_buffer dev id).2) id =
      (-ENOENT, (npu_free_dma_buffer dev id).2) ∧
    (∀ t : NpuDmaTransfer, t.buffer_id = id →
      npu_dma_transfer_start ((npu_free_dma_buffer dev id).2) t =
        (DmaStart.done (-ENOENT), (npu_free_dma_buffer dev id).2)) := by
  have hget : dev.bufs.get? i = some buf := (findReg_get? hfind).1
  have hlen : i < dev.bufs.length := (List.get?_eq_some.mp hget).1
  have hfree : npu_free_dma_buffer dev id =
      (0, { dev with bufs := dev.bufs.set i (freedBuf buf) }) := by
    unfold npu_free_dma_buffer freedBuf
    rw [hfind]
  have hnone : findReg ((npu_free_dma_buffer dev id).2).bufs id = none := by
    rw [hfree]
    exact findReg_set_unmatch hfind huniq rfl
  refine ⟨?_, hnone, ?_, ?_, ?_⟩
  · rw [hfree]
  · intro hr1
    rw [hfree]
    dsimp only [freedBuf]
    rw [if_neg (by omega : ¬buf.ref_count - 1 = 0)]
    exact get?_set_self hlen _
  · generalize hde : (npu_free_dma_buffer dev id).2 = d1 at hnone ⊢
    unfold npu_free_dma_buffer
    rw [hnone]
  · intro t ht
    generalize hde : (npu_free_dma_buffer dev id).2 = d1 at hnone ⊢
    unfold npu_dma_transfer_start
    rw [ht, hnone]

/-- Witness buffer for c10: registered with reference count 2 (one extra
in-flight reference). -/
def bufC10 : NpuDmaBuf :=
  { buffer_id := 1, size := 4096, flags := 0, dma_handle := 0,
    ref_count := 2, in_registry := true, mem_alive := true }

/-- Witness device holding only bufC10. -/
def devC10 : NpuDev :=
  { bufs := [bufC10], next_buffer_id := 2, allocated_ids := [1],
    reg_log := [], perf_operations := 0 }

/-- Witness applying c10_free_unlinks_then_not_found at devC10. -/
theorem c10_free_unlinks_then_not_found_witness :
    (npu_free_dma_buffer devC10 1).1 = 0 ∧
    findReg ((npu_free_dma_buffer devC10 1).2).bufs 1 = none ∧
    ((npu_free_dma_buffer devC10 1).2).bufs.get? 0 =
      some { bufC10 with in_registry := false, ref_count := bufC10.ref_count - 1 } ∧
    npu_free_dma_buffer ((npu_free_dma_buffer devC10 1).2) 1 =
      (-ENOENT, (npu_free_dma_buffer devC10 1).2) := by
  obtain ⟨h1, h2, h3, h4, _⟩ :=
    c10_free_unlinks_then_not_found devC10 1 0 bufC10 (by decide) (by decide)
  exact ⟨h1, h2, h3 (by decide), h4⟩

/-! Claim C7: allocation bounds and strictly increasing buffer ids. -/

/-- Id-accounting invariant of driver states: the next id to assign equals
1 + (number of ids handed out) reduced mod 2^32 (the u32 counter wraps), and
every id handed out so far is at most the number handed out. -/
def idInv (dev : NpuDev) : Prop :=
  dev.next_buffer_id = (1 + dev.allocated_ids.length) % U32_MOD ∧
  ∀ id ∈ dev.allocated_ids, id ≤ dev.allocated_ids.length

/-- The freshly probed device satisfies the id invariant. -/
theorem idInv_initDev : idInv initDev := by
  constructor
  · norm_num [initDev, U32_MOD]
  · intro id hid
    simp [initDev] at hid

/-- Every driver call preserves the id invariant. -/
theorem idInv_stepOp (dev : NpuDev) (op : NpuOp) (h : idInv dev) :
    idInv (stepOp dev op) := by
  obtain ⟨h1, h2⟩ := h
  cases op with
  | alloc size flags handle =>
    unfold stepOp npu_alloc_dma_buffer
    dsimp only
    by_cases hs : size < NPU_MIN_BUFFER_SIZE ∨ NPU_MAX_BUFFER_SIZE < size
    · rw [if_pos hs]
      exact ⟨h1, h2⟩
    · rw [if_neg hs]
      dsimp only
      constructor
      · show (dev.next_buffer_id + 1) % U32_MOD =
          (1 + (dev.next_buffer_id :: dev.allocated_ids).length) % U32_MOD
        rw [h1, Nat.mod_add_mod, List.length_cons]
        congr 1
      · intro id hid
        rw [List.length_cons]
        rcases List.mem_cons.mp hid with rfl | hid
        · rw [h1]
          have := Nat.mod_le (1 + dev.allocated_ids.length) U32_MOD
          omega
        · have := h2 id hid
          omega
  | free buffer_id =>
    unfold stepOp npu_free_dma_buffer
    dsimp only
    split
    · exact ⟨h1, h2⟩
    · exact ⟨h1, h2⟩
  | dmaStart t =>
    unfold stepOp npu_dma_transfer_start
    dsimp only
    split
    · exact ⟨h1, h2⟩
    · split
      · exact ⟨h1, h2⟩
      · exact ⟨h1, h2⟩
  | dmaFinish token wait_ret =>
    unfold stepOp npu_dma_transfer_finish
    dsimp only
    exact ⟨h1, h2⟩
  | execInst inst =>
    unfold stepOp npu_execute_instruction
    dsimp only
    split
    · exact ⟨h1, h2⟩
    · exact ⟨h1, h2⟩

/-- Every reachable driver state satisfies the id invariant. -/
theorem idInv_runOps (ops : List NpuOp) : idInv (runOps ops) := by
  have h : ∀ dev, idInv dev → idInv (List.foldl stepOp dev ops) := by
    induction ops with
    | nil => intro dev hdev; exact hdev
    | cons op rest ih =>
      intro dev hdev
      exact ih _ (idInv_stepOp dev op hdev)
  exact h initDev idInv_initDev

/-- C7: in every reachable driver state, an allocation whose size lies outside
[4096 B, 16 MiB] (so in particular size 0 and any size above 16 MiB) fails with
-EINVAL, creating no buffer and changing nothing; a valid-size allocation
succeeds, appends a new buffer whose initial reference count is 1, and, as long
as fewer than 2^32 - 1 ids have been handed out (the id counter is a u32),
assigns the id (number handed out) + 1, which is strictly greater than every
previously allocated id. -/
theorem c7_alloc_bounds_monotonic_ids (ops : List NpuOp) (size flags handle : Nat) :
    ((size < NPU_MIN_BUFFER_SIZE ∨ NPU_MAX_BUFFER_SIZE < size) →
      npu_alloc_dma_buffer (runOps ops) size flags handle =
        (-EINVAL, runOps ops, none)) ∧
    (NPU_MIN_BUFFER_SIZE ≤ size → size ≤ NPU_MAX_BUFFER_SIZE →
      (runOps ops).allocated_ids.length + 1 < U32_MOD →
      npu_alloc_dma_buffer (runOps ops) size flags handle =
        (0,
         { runOps ops with
            bufs := (runOps ops).bufs ++
              [{ buffer_id := (runOps ops).allocated_ids.length + 1, size := size,
                 flags := flags, dma_handle := handle, ref_count := 1,
                 in_registry := true, mem_alive := true }],
            next_buffer_id := ((runOps ops).next_buffer_id + 1) % U32_MOD,
            allocated_ids := ((runOps ops).allocated_ids.length + 1) ::
              (runOps ops).allocated_ids },
         some ((runOps ops).allocated_ids.length + 1)) ∧
      ∀ old ∈ (runOps ops).allocated_ids,
        old < (runOps ops).allocated_ids.length + 1) := by
  obtain ⟨h1, h2⟩ := idInv_runOps ops
  constructor
  · intro hs
    unfold npu_alloc_dma_buffer
    rw [if_pos hs]
  · intro hmin hmax hlen
    have hnext : (runOps ops).next_buffer_id =
        (runOps ops).allocated_ids.length + 1 := by
      rw [h1, Nat.mod_eq_of_lt (by omega)]
      omega
    constructor
    · unfold npu_alloc_dma_buffer
      rw [if_neg (by omega)]
      dsimp only
      rw [hnext]
    · intro old hold
      have := h2 old hold
      omega

/-- Witness applying c7_alloc_bounds_monotonic_ids from the freshly probed
state: size 0 and size 20000000 fail -EINVAL, size 4096 succeeds with id 1. -/
theorem c7_alloc_bounds_monotonic_ids_witness :
    npu_alloc_dma_buffer (runOps []) 0 0 0 = (-EINVAL, runOps [], none) ∧
    npu_alloc_dma_buffer (runOps []) 20000000 0 0 = (-EINVAL, runOps [], none) ∧
    npu_alloc_dma_buffer (runOps []) 4096 5 77 =
      (0,
       { runOps [] with
          bufs := (runOps []).bufs ++
            [{ buffer_id := (runOps []).allocated_ids.length + 1, size := 4096,
               flags := 5, dma_handle := 77, ref_count := 1,
               in_registry := true, mem_alive := true }],
          next_buffer_id := ((runOps []).next_buffer_id + 1) % U32_MOD,
          allocated_ids := ((runOps []).allocated_ids.length + 1) ::
            (runOps []).allocated_ids },
       some ((runOps []).allocated_ids.length + 1)) :=
  ⟨(c7_alloc_bounds_monotonic_ids [] 0 0 0).1
      (Or.inl (by norm_num [NPU_MIN_BUFFER_SIZE])),
   (c7_alloc_bounds_monotonic_ids [] 20000000 0 0).1
      (Or.inr (by norm_num [NPU_MAX_BUFFER_SIZE])),
   ((c7_alloc_bounds_monotonic_ids [] 4096 5 77).2
      (by norm_num [NPU_MIN_BUFFER_SIZE])
      (by norm_num [NPU_MAX_BUFFER_SIZE])
      (by norm_num [runOps, initDev, U32_MOD])).1⟩

/-! Claim C3: matrix multiply and dimension validation. -/

/-- Staging context with a 65536-byte buffer and empty logs. -/
def ctxC3 : NpuCtx :=
  { buffer_size := 65536, buffer_offset := 0, submitted := [], waits := [],
    readbacks := [] }

/-- A 2 x 3 float32 matrix (NCHW dims [1, 1, 2, 3], 24 bytes). -/
def aC3 : NpuTensor := { size := 24, dims := [1, 1, 2, 3], dtype := 4 }

/-- A 4 x 5 float32 matrix: its outer dimension 4 differs from the inner
dimension 3 of aC3, so the multiplication is dimensionally invalid. -/
def bC3 : NpuTensor := { size := 80, dims := [1, 1, 4, 5], dtype := 4 }

/-- The 2 x 5 output matrix. -/
def cC3 : NpuTensor := { size := 40, dims := [1, 1, 2, 5], dtype := 4 }

/-- C3 counterexample: with A of inner dimension 3 and B of outer dimension 4,
npu_matrix_multiply still submits one MATMUL instruction, refuting the claimed
validate-before-submit behaviour; the error it then returns is
NPU_ERROR_DEVICE from the always-failing wait ioctl, not a validation error,
and nothing is read back. -/
theorem c3_matmul_counterexample :
    ¬aC3.dims.getD 3 0 = bC3.dims.getD 2 0 ∧
    ((npu_matrix_multiply ctxC3 aC3 bC3 cC3).2).submitted.length = 1 ∧
    (npu_matrix_multiply ctxC3 aC3 bC3 cC3).1 = NPU_ERROR_DEVICE ∧
    ¬(npu_matrix_multiply ctxC3 aC3 bC3 cC3).1 = NPU_ERROR_INVALID :=
  ⟨by decide, by decide, by decide, by decide⟩

/-- Wait attempts through npu_wait_completion always fail against this driver:
the raw ioctl command word 1 is rejected by the magic gate with -ENOTTY, which
the library maps to NPU_ERROR_DEVICE. -/
theorem lib_wait_completion_device_error (ctx : NpuCtx) (timeout_ms : Nat) :
    lib_wait_completion ctx timeout_ms =
      (NPU_ERROR_DEVICE, { ctx with waits := timeout_ms :: ctx.waits }) := by
  unfold lib_wait_completion fpga_npu_ioctl_dispatch
  rw [if_neg (by decide : ¬ioctl_type 1 = FPGA_NPU_MAGIC)]
  rw [if_pos (by decide : (-ENOTTY : Int) < 0)]

/-- C3 amended: npu_matrix_multiply performs no dimension validation at all:
whenever the three operands fit in the staging buffer it unconditionally builds
and submits exactly one MATMUL instruction whose src1/src2/dst are the bump
offsets of A, B and C, whose size is C.size, and whose params[0..2] are
M = A.dims[2], K = A.dims[3], N = B.dims[3] - regardless of whether the inner
dimension of A equals the outer dimension of B.  It then attempts the
synchronous wait, which against this repository driver always fails (the wait
ioctl carries command word 1, rejected by the FPGA_NPU_MAGIC check with
-ENOTTY), so the call returns NPU_ERROR_DEVICE and never reads C back. -/
theorem c3_matmul_no_dimension_check (ctx : NpuCtx) (a b c : NpuTensor)
    (hfit : a.size + b.size + c.size ≤ ctx.buffer_size)
    (hbs : ctx.buffer_size < U32_MOD) :
    npu_matrix_multiply ctx a b c =
      (NPU_ERROR_DEVICE,
       { ctx with
          buffer_offset := a.size + b.size + c.size,
          submitted :=
            { op := NPU_OP_MATMUL, src1_addr := 0, src2_addr := a.size,
              dst_addr := a.size + b.size, size := c.size,
              params := [a.dims.getD 2 0, a.dims.getD 3 0, b.dims.getD 3 0, 0] } ::
              ctx.submitted,
          waits := 0 :: ctx.waits }) := by
  have hm1 : (0 + a.size) % U32_MOD = a.size := by
    rw [Nat.zero_add]
    exact Nat.mod_eq_of_lt (by omega)
  have hm2 : (a.size + b.size) % U32_MOD = a.size + b.size :=
    Nat.mod_eq_of_lt (by omega)
  have hm3 : (a.size + b.size + c.size) % U32_MOD = a.size + b.size + c.size :=
    Nat.mod_eq_of_lt (by omega)
  have hmc : c.size % U32_MOD = c.size := Nat.mod_eq_of_lt (by omega)
  unfold npu_matrix_multiply copy_tensor_to_buffer lib_execute_instruction
  dsimp only
  rw [if_neg (show ¬ctx.buffer_size < 0 + a.size by omega)]
  dsimp only
  rw [if_neg (not_not_intro rfl), hm1]
  rw [if_neg (show ¬ctx.buffer_size < a.size + b.size by omega)]
  dsimp only
  rw [if_neg (not_not_intro rfl), hm2]
  rw [if_neg (show ¬ctx.buffer_size < a.size + b.size + c.size by omega)]
  dsimp only
  rw [if_neg (not_not_intro rfl), hm3, hmc]
  rw [if_neg (not_not_intro rfl)]
  rw [lib_wait_completion_device_error]
  rw [if_pos (by decide : ¬(NPU_ERROR_DEVICE : Int) = NPU_SUCCESS)]

/-- Witness applying c3_matmul_no_dimension_check at the dimensionally
mismatched tensors aC3, bC3, cC3: the instruction with M = 2, K = 3, N = 5 is
submitted, the wait fails with NPU_ERROR_DEVICE, and no readback is logged. -/
theorem c3_matmul_no_dimension_check_witness :
    npu_matrix_multiply ctxC3 aC3 bC3 cC3 =
      (NPU_ERROR_DEVICE,
       { ctxC3 with
          buffer_offset := aC3.size + bC3.size + cC3.size,
          submitted :=
            { op := NPU_OP_MATMUL, src1_addr := 0, src2_addr := aC3.size,
              dst_addr := aC3.size + bC3.size, size := cC3.size,
              params := [aC3.dims.getD 2 0, aC3.dims.getD 3 0,
                bC3.dims.getD 3 0, 0] } :: ctxC3.submitted,
          waits := 0 :: ctxC3.waits }) :=
  c3_matmul_no_dimension_check ctxC3 aC3 bC3 cC3 (by decide) (by decide)

end FpgaNpu
